import Mathlib

/-!
# Verification of the nws_sent job-orchestration middleware

A shallow embedding, in Lean 4, of the Go middleware that pulls paginated
result sets from a Solr search index, converts each page into a training
batch and forwards batches to a remote analytics engine, together with
theorems settling the behavioural claims about it.

The embedding follows the Go source:
* package `solr` — `SolrJob`, `solrPuller`, `PullSolrData`, `Init`,
  `Operation`, `trainEngineOperation`, `getSolrUrl`, `getTargetURL`;
* package `core` — `Queue` (double-ended linked queue), `Container`,
  HTTP helper results, training payload types;
* package `http` — the control-plane façade (`SubmitJob`, `CancelJob`).

External HTTP traffic is modelled by an explicit oracle (`HttpWorld`),
so every theorem is quantified over all possible remote behaviours.
Go-specific semantics that the source relies on are modelled explicitly:
`json.Unmarshal` applied to a non-pointer target (it fails with
`InvalidUnmarshalError` without inspecting the data), `fmt.Sprintf` with
more arguments than verbs (it appends a `%!(EXTRA type=value)` artifact),
value-receiver methods (the body mutates a copy of the receiver), and the
`interface` type assertion (it panics when the dynamic type differs).
-/

namespace NwsSent

/-! ## Core data types (package `core` and `solr` structs) -/

/-- Raw HTTP response body, as returned by `core.GetRequest`. -/
abbrev RawData := String

/-- Errors produced along the Go error-return channel. -/
inductive GoError where
  /-- A network/transport failure from `http.Get` / `http.Post`. -/
  | transport (msg : String)
  /-- `json.Unmarshal` applied to a non-pointer target: Go returns
  `InvalidUnmarshalError` describing the target type. -/
  | invalidUnmarshal (typeName : String)
  /-- `json.Unmarshal` into a valid pointer failed on malformed data. -/
  | decode (msg : String)
  /-- An error built with `fmt.Errorf`. -/
  | errorf (msg : String)
  deriving DecidableEq

/-- `core.TrainExamples`: one `(text, label)` training example. -/
structure TrainExamples where
  label : String
  text : String
  deriving DecidableEq

/-- `core.Training`: a batch of training examples (the `Batch` of the spec). -/
structure Training where
  examples : List TrainExamples
  deriving DecidableEq

/-- `core.TrainingStatus`: payload of `GET /stream/status`. -/
structure TrainingStatus where
  running : Bool
  deriving DecidableEq

/-- `core.Result`: status code and data wrapper returned by `core.PostRequest`. -/
structure GoResult where
  data : RawData
  status : Int
  deriving DecidableEq

/-- `solr.Solr`: a registered search-index connection descriptor. -/
structure Solr where
  id : Int
  host : String
  port : String
  deriving DecidableEq

/-- `solr.SolrCore`: the job descriptor binding a connection id to query
parameters, the training label, and the analytics-engine host/port. -/
structure SolrCore where
  id : Int
  solrID : Int
  collection : String
  sort : String
  cursorMark : String
  rows : Int
  endpoint : String
  label : String
  host : String
  port : String
  deriving DecidableEq

/-- `solr.SolrJobStatus`: the job lifecycle enumeration. -/
inductive SolrJobStatus where
  | INIT
  | RUNNING
  | COMPLETED
  | FAILED
  | PENDING
  deriving DecidableEq

/-- `solr.SolrJob`: one submission's state. The Go struct also holds a
`*sync.WaitGroup`, which carries no observable state and is omitted. -/
structure SolrJob where
  s : Solr
  j : SolrCore
  status : SolrJobStatus
  prvCursorMark : String
  currentSolrURL : String
  errorMessage : String
  deriving DecidableEq

/-- `solr.GetSolrJob`: allocates a job in the `PENDING` state. -/
def getSolrJob (j : SolrCore) (s : Solr) : SolrJob :=
  { s := s
    j := j
    status := SolrJobStatus.PENDING
    prvCursorMark := ""
    currentSolrURL := ""
    errorMessage := "" }

/-! ## Solr response envelope (`solr/doc.go`) -/

/-- `solr.SolrDocument`. Only the `content` field is ever read by the
orchestration code (the remaining schema fields — tstamp, anchor, digest,
boost, id, title, url, version — are never consulted). -/
structure SolrDocument where
  content : String
  deriving DecidableEq

/-- `solr.ResponseHeader`: carries the echoed params map, among which the
index reports `nextCursorMark`. Go's `map[string]string` is modelled as an
association list. -/
structure ResponseHeader where
  status : Int
  qTime : Int
  params : List (String × String)
  deriving DecidableEq

/-- `solr.Response`: the `docs` payload of a select query. -/
structure SolrResponseBody where
  numFound : Int
  start : Int
  numFoundExact : Bool
  docs : List SolrDocument
  deriving DecidableEq

/-- `solr.SolrResponse`: the full result envelope. -/
structure SolrResponse where
  responseHeader : ResponseHeader
  response : SolrResponseBody
  deriving DecidableEq

/-- The zero value of `SolrResponse`, as produced by `SolrResponse{}`. -/
def zeroSolrResponse : SolrResponse :=
  { responseHeader := { status := 0, qTime := 0, params := [] }
    response := { numFound := 0, start := 0, numFoundExact := false, docs := [] } }

/-- Indexing a Go `map[string]string`: a missing key yields the zero
value `""`. -/
def goMapGet (m : List (String × String)) (k : String) : String :=
  match m.find? (fun p => p.1 == k) with
  | some p => p.2
  | none => ""

/-! ## Go `json.Unmarshal` semantics -/

/-- How a Go unmarshal target is passed: through a pointer (`&x`) or by
value (`x`). `Init` and `solrPuller` both pass their target by value. -/
inductive GoTarget (β : Type) where
  | ptr (v : β)
  | value (v : β)

/-- Go `json.Unmarshal` semantics, returning the (possibly updated)
target variable and the error. A pointer target is filled from the data
when `decode` succeeds; a non-pointer target makes `json.Unmarshal`
return `InvalidUnmarshalError` immediately, without inspecting the data
and without updating the caller's variable. -/
def jsonUnmarshal {β : Type} (typeName : String) (decode : RawData → Option β)
    (data : RawData) : GoTarget β → β × Option GoError
  | GoTarget.ptr v =>
    match decode data with
    | some u => (u, none)
    | none => (v, some (GoError.decode typeName))
  | GoTarget.value v => (v, some (GoError.invalidUnmarshal typeName))

/-! ## The external HTTP world

`core.GetRequest` and `core.PostRequest` are modelled by an oracle mapping
each URL to either a transport error or a response body; `decodeSolr` and
`decodeStatus` state how a given body would decode into the respective
struct (they are consulted only by pointer-target unmarshals). -/

structure HttpWorld where
  get : String → Except GoError RawData
  post : String → Option RawData → Except GoError GoResult
  decodeSolr : RawData → Option SolrResponse
  decodeStatus : RawData → Option TrainingStatus

/-! ## URL construction -/

/-- UTF-8 encoding of a character, as the list of its bytes. -/
def utf8Bytes (c : Char) : List Nat :=
  let n := c.toNat
  if n < 0x80 then [n]
  else if n < 0x800 then [0xC0 + n / 0x40, 0x80 + n % 0x40]
  else if n < 0x10000 then
    [0xE0 + n / 0x1000, 0x80 + n / 0x40 % 0x40, 0x80 + n % 0x40]
  else
    [0xF0 + n / 0x40000, 0x80 + n / 0x1000 % 0x40, 0x80 + n / 0x40 % 0x40,
      0x80 + n % 0x40]

/-- One uppercase hexadecimal digit. -/
def hexDigit (n : Nat) : String :=
  ["0", "1", "2", "3", "4", "5", "6", "7", "8", "9", "A", "B", "C", "D", "E",
    "F"].getD n "0"

/-- Go `url.QueryEscape`: unreserved characters are kept, a space becomes
`+`, and every other byte is percent-encoded with uppercase hex. -/
def queryEscape (s : String) : String :=
  s.data.foldl (fun acc c =>
    if c.isAlphanum || c = '-' || c = '_' || c = '.' || c = '~' then
      acc.push c
    else if c = ' ' then acc.push '+'
    else acc ++ String.join ((utf8Bytes c).map
      (fun b => "%" ++ hexDigit (b / 16) ++ hexDigit (b % 16)))) ""

/-- Go's decimal rendering of an `int`, used by the `%d` verb. -/
def goIntRepr (n : Int) : String :=
  if n < 0 then "-" ++ Nat.repr n.natAbs else Nat.repr n.natAbs

/-- `SolrJob.getSolrUrl`: builds the select URL for a cursor mark. The
sentinel `"*"` is passed as `cursorMark`, any other token as
`nextCursorMark`. (The source also assigns `s.prvCursorMark = cursorMark`,
but through a value receiver, so the write lands on a copy and is lost.) -/
def SolrJob.getSolrUrl (s : SolrJob) (cursorMark : String) : String :=
  let solrBaseURL := "http://" ++ s.s.host ++ ":" ++ s.s.port
  let firstPart := solrBaseURL ++ "/solr/" ++ s.j.collection ++ "/select?q=" ++
    queryEscape "*:*" ++ "&wt=json&rows=" ++ goIntRepr s.j.rows ++ "&sort=" ++
    queryEscape s.j.sort
  if cursorMark = "*" then
    firstPart ++ "&cursorMark=" ++ queryEscape cursorMark
  else
    firstPart ++ "&nextCursorMark=" ++ queryEscape cursorMark

/-- `SolrJob.getTargetURL`: the source calls
`fmt.Sprintf("http://%s:%s", s.j.Host, s.j.Port, endpoint)` — two verbs,
three arguments. Go's `fmt` reports the unconsumed argument by appending
`%!(EXTRA string=<value>)` to the formatted output, so the endpoint path
is never appended as a URL path. -/
def SolrJob.getTargetURL (s : SolrJob) (endpoint : String) : String :=
  "http://" ++ s.j.host ++ ":" ++ s.j.port ++ "%!(EXTRA string=" ++
    endpoint ++ ")"

/-! ## Single-page pull (`solrPuller`) -/

/-- `SolrJob.solrPuller`: one Solr select query for the given cursor mark,
returning `(newCursorMark, trainingBatch, error)` exactly as the source
does. Note the source's `json.Unmarshal(data, solrResponse)` passes the
`SolrResponse` struct by value (not `&solrResponse`), which is embedded by
the `GoTarget.value` target below. -/
def SolrJob.solrPuller (w : HttpWorld) (s : SolrJob) (cursorMark : String) :
    String × Training × Option GoError :=
  match w.get (SolrJob.getSolrUrl s cursorMark) with
  | Except.error e => ("", { examples := [] }, some e)
  | Except.ok data =>
    match jsonUnmarshal "solr.SolrResponse" w.decodeSolr data
        (GoTarget.value zeroSolrResponse) with
    | (_, some e) => ("", { examples := [] }, some e)
    | (solrResponse, none) =>
      if solrResponse.response.docs.length = 0 then
        ("", { examples := [] },
          some (GoError.errorf "No more documents to fetch"))
      else
        (goMapGet solrResponse.responseHeader.params "nextCursorMark",
          { examples := solrResponse.response.docs.map
              (fun doc => { text := doc.content, label := s.j.label }) },
          none)

/-- The callback type `solr.SolrErrorFunction`:
`func(core.Training, error) error`. `none` models a nil error. -/
abbrev SolrErrorFunction := Training → Option GoError → Option GoError

/-- Ghost observation record for a run of `PullSolrData`: which cursor
marks were passed to `solrPuller` (each causes exactly one GET), and the
arguments of every invocation of the caller-supplied callback `fn`. -/
structure PullLog where
  queried : List String
  calls : List (Training × Option GoError)
  deriving DecidableEq

/-- The empty observation record. -/
def PullLog.empty : PullLog := { queried := [], calls := [] }

/-- `SolrJob.PullSolrData`, instrumented with a `PullLog`. The control
flow is the source's: query one page; if `solrPuller` reported an error,
invoke `fn(traindata, err)` and return its result; otherwise recurse on
the new mark — the callback is *not* invoked on the success path. The
source recursion has no structural bound, so a fuel argument is added;
a `none` result means the fuel ran out before the source returned. -/
def SolrJob.pullSolrDataAux (w : HttpWorld) (s : SolrJob)
    (fn : SolrErrorFunction) :
    Nat → String → PullLog → PullLog × Option (Option GoError)
  | 0, _, log => (log, none)
  | Nat.succ fuel, cursor, log =>
    match SolrJob.solrPuller w s cursor with
    | (_, traindata, some e) =>
      ({ queried := log.queried ++ [cursor]
         calls := log.calls ++ [(traindata, some e)] },
        some (fn traindata (some e)))
    | (mark, _, none) =>
      SolrJob.pullSolrDataAux w s fn fuel mark
        { log with queried := log.queried ++ [cursor] }

/-- `SolrJob.PullSolrData` proper: the result of the instrumented run. -/
def SolrJob.pullSolrData (w : HttpWorld) (s : SolrJob)
    (fn : SolrErrorFunction) (fuel : Nat) (cursor : String) :
    Option (Option GoError) :=
  (SolrJob.pullSolrDataAux w s fn fuel cursor PullLog.empty).2

/-! ## Batch dispatch (`trainEngineOperation`, `Operation`) -/

/-- A primitive JSON rendering of a training batch, standing in for
`json.Marshal(data)` (which cannot fail on this plain struct). -/
def encodeTraining (t : Training) : RawData :=
  "\x7b\"examples\":[" ++
    String.intercalate ","
      (t.examples.map (fun e =>
        "\x7b\"label\":\"" ++ e.label ++ "\",\"text\":\"" ++ e.text ++
          "\"\x7d")) ++
    "]\x7d"

/-- `SolrJob.trainEngineOperation`: POSTs one batch to the analytics
engine's `/stream/train` endpoint (through the broken `getTargetURL`). -/
def SolrJob.trainEngineOperation (w : HttpWorld) (s : SolrJob)
    (data : Training) : GoResult × Option GoError :=
  match w.post (SolrJob.getTargetURL s "/stream/train")
      (some (encodeTraining data)) with
  | Except.error e => ({ data := "", status := 0 }, some e)
  | Except.ok r => (r, none)

/-- First error among the worker POSTs, processing the delivered batches
in order (stage B of the dispatch pipeline). -/
def firstTrainError (w : HttpWorld) (s : SolrJob) :
    List Training → Option GoError
  | [] => none
  | b :: rest =>
    match SolrJob.trainEngineOperation w s b with
    | (_, some e) => some e
    | (_, none) => firstTrainError w s rest

/-- The body of `SolrJob.Operation`, acting on the method's receiver
copy. The concurrent errgroup pipeline is modelled sequentially: the
producer runs `PullSolrData` from the sentinel cursor `"*"` with the
callback `func(data, err) { if err != nil { return err }; send; return
nil }` (a successful channel send is modelled as returning nil); the
batches the callback forwarded (its nil-error invocations) are then
POSTed by the workers, and the group's collected error is the producer's
error if any, else the first worker error. A `none` result models the
source not returning (the model also charitably ignores that the source
never closes its results channel `c`, so the `for r := range c` loop in
fact never terminates). On a group error the copy's status is set to
`FAILED`, otherwise to `COMPLETED`; the source never writes
`ErrorMessage`. -/
def SolrJob.OperationBody (w : HttpWorld) (fuel : Nat) (s0 : SolrJob) :
    Option (SolrJob × Option GoError) :=
  let s := { s0 with status := SolrJobStatus.RUNNING }
  match SolrJob.pullSolrDataAux w s (fun _ e => e) fuel "*" PullLog.empty with
  | (_, none) => none
  | (log, some pullErr) =>
    let sent := (log.calls.filter (fun p => p.2.isNone)).map (fun p => p.1)
    let groupErr :=
      match pullErr with
      | some e => some e
      | none => firstTrainError w s sent
    match groupErr with
    | some e => some ({ s with status := SolrJobStatus.FAILED }, some e)
    | none => some ({ s with status := SolrJobStatus.COMPLETED }, none)

/-- A call of `Operation` as the rest of the program observes it. The
source declares `func (s SolrJob) Operation() error` with a *value*
receiver: the body runs on a copy of the job, so every status write in
the body is lost and the caller's job is returned unchanged, paired with
the call's result (`none` when the body does not return). -/
def SolrJob.callOperation (w : HttpWorld) (fuel : Nat) (j : SolrJob) :
    SolrJob × Option (Option GoError) :=
  match SolrJob.OperationBody w fuel j with
  | none => (j, none)
  | some (_, err) => (j, some err)

/-! ## Job initialization (`Init`) -/

/-- `SolrJob.Init` (pointer receiver, so its status writes are
observable): set status `INIT`; GET the status endpoint URL produced by
`getTargetURL`; unmarshal the body into `core.TrainingStatus{}` — passed
by value, embedded as a `GoTarget.value` target; if `Running` is false,
POST the start endpoint; on full success set status `PENDING`. Returns
the updated job and the error. -/
def SolrJob.Init (w : HttpWorld) (s0 : SolrJob) : SolrJob × Option GoError :=
  let s := { s0 with status := SolrJobStatus.INIT }
  match w.get (SolrJob.getTargetURL s "/stream/status") with
  | Except.error e => (s, some e)
  | Except.ok data =>
    match jsonUnmarshal "core.TrainingStatus" w.decodeStatus data
        (GoTarget.value { running := false }) with
    | (_, some e) => (s, some e)
    | (isRunning, none) =>
      if isRunning.running = false then
        match w.post (SolrJob.getTargetURL s "/stream/start") none with
        | Except.error e => (s, some e)
        | Except.ok _ => ({ s with status := SolrJobStatus.PENDING }, none)
      else ({ s with status := SolrJobStatus.PENDING }, none)

/-! ## Work queue (`core/queue.go`)

The doubly-linked pointer structure is embedded with an explicit heap:
`Container` nodes live in a list addressed by allocation index, and
`prv`/`next` hold optional addresses. A node's `Value` field has Go type
`any`; the type assertions in the pop/peek operations depend only on the
value's dynamic type, which the embedding records explicitly. -/

/-- The dynamic Go type of a value stored in a `Container`'s `any` field:
a `core.Container` struct, a `*solr.SolrJob` (what the submission façade
stores), or anything else. -/
inductive GoDynType where
  | tContainer
  | tSolrJobPtr
  | tOther
  deriving DecidableEq

/-- A Go `any` value: its dynamic type plus an opaque identity tag. -/
structure GoVal where
  ty : GoDynType
  tag : Nat
  deriving DecidableEq

/-- A Go panic raised by the queue operations. -/
inductive GoPanic where
  /-- A failed interface type assertion `.(Container)`, recording the
  actual dynamic type. -/
  | interfaceConversion (got : GoDynType)
  /-- Dereference of a dangling node address (unreachable for states
  built through the queue API). -/
  | nilPointer
  deriving DecidableEq

/-- `core.Container`: prev/next links and the wrapped value. -/
structure Container where
  prv : Option Nat
  next : Option Nat
  value : GoVal
  deriving DecidableEq

/-- `core.GetContainer`: allocates a fresh node wrapping `v`, returning
the extended heap and the new node's address. -/
def getContainer (heap : List Container) (v : GoVal) : List Container × Nat :=
  (heap ++ [{ prv := none, next := none, value := v }], heap.length)

/-- Overwrite the `next` link of the node at address `a`. -/
def setNext (heap : List Container) (a : Nat) (n : Option Nat) :
    List Container :=
  match heap[a]? with
  | none => heap
  | some c => heap.set a { c with next := n }

/-- Overwrite the `prv` link of the node at address `a`. -/
def setPrv (heap : List Container) (a : Nat) (n : Option Nat) :
    List Container :=
  match heap[a]? with
  | none => heap
  | some c => heap.set a { c with prv := n }

/-- `core.Queue`: heap of nodes plus `front`/`back` addresses and the
`size` counter (Go `int`, so an `Int` here — the source lets it go
negative). The mutex and the `ready` channel carry no sequential state. -/
structure Queue where
  heap : List Container
  front : Option Nat
  back : Option Nat
  size : Int
  deriving DecidableEq

/-- `core.NewQueue`: the empty queue. -/
def newQueue : Queue := { heap := [], front := none, back := none, size := 0 }

/-- `Queue.PushBack`: append the node at `addr` at the back. Both
branches of the source increment `size`. -/
def Queue.pushBack (q : Queue) (addr : Nat) : Queue :=
  match q.back with
  | none =>
    { q with front := some addr, back := some addr, size := q.size + 1 }
  | some b =>
    let h1 := setPrv q.heap addr (some b)
    let h2 := setNext h1 b (some addr)
    { q with heap := h2, back := some addr, size := q.size + 1 }

/-- `Queue.PushFront`: insert the node at `addr` at the front. In the
empty case the source *returns early*, before the `q.size += 1` at the
end of the function, so the counter is not incremented on that path. -/
def Queue.pushFront (q : Queue) (addr : Nat) : Queue :=
  match q.front with
  | none => { q with back := some addr, front := some addr }
  | some f =>
    let h1 := setNext q.heap addr (some f)
    let h2 := setPrv h1 f (some addr)
    { q with heap := h2, front := some addr, size := q.size + 1 }

/-- `Queue.PopFront`: an empty queue returns `(Container{}, false)`
(modelled `ok none`); otherwise the source first evaluates the unchecked
type assertion `q.front.Value.(Container)` — which panics unless the
stored value's dynamic type is `Container` — and only then unlinks the
node and decrements `size`. -/
def Queue.popFront (q : Queue) : Except GoPanic (Option (GoVal × Queue)) :=
  match q.front with
  | none => Except.ok none
  | some f =>
    match q.heap[f]? with
    | none => Except.error GoPanic.nilPointer
    | some node =>
      if node.value.ty = GoDynType.tContainer then
        let q1 :=
          match node.next with
          | some nf =>
            { q with
              heap := setPrv q.heap nf none
              front := some nf
              size := q.size - 1 }
          | none =>
            { q with front := none, back := none, size := q.size - 1 }
        Except.ok (some (node.value, q1))
      else Except.error (GoPanic.interfaceConversion node.value.ty)

/-- `Queue.PopBack`: symmetric to `PopFront`, asserting
`q.back.Value.(Container)` before unlinking. -/
def Queue.popBack (q : Queue) : Except GoPanic (Option (GoVal × Queue)) :=
  match q.back with
  | none => Except.ok none
  | some b =>
    match q.heap[b]? with
    | none => Except.error GoPanic.nilPointer
    | some node =>
      if node.value.ty = GoDynType.tContainer then
        let q1 :=
          match node.prv with
          | some nb =>
            { q with
              heap := setNext q.heap nb none
              back := some nb
              size := q.size - 1 }
          | none =>
            { q with front := none, back := none, size := q.size - 1 }
        Except.ok (some (node.value, q1))
      else Except.error (GoPanic.interfaceConversion node.value.ty)

/-- `Queue.PeekFront`: evaluates the same unchecked assertion on the
front value without removing it. -/
def Queue.peekFront (q : Queue) : Except GoPanic (Option GoVal) :=
  match q.front with
  | none => Except.ok none
  | some f =>
    match q.heap[f]? with
    | none => Except.error GoPanic.nilPointer
    | some node =>
      if node.value.ty = GoDynType.tContainer then Except.ok (some node.value)
      else Except.error (GoPanic.interfaceConversion node.value.ty)

/-- `Queue.PeekBack`: the same on the back value. -/
def Queue.peekBack (q : Queue) : Except GoPanic (Option GoVal) :=
  match q.back with
  | none => Except.ok none
  | some b =>
    match q.heap[b]? with
    | none => Except.error GoPanic.nilPointer
    | some node =>
      if node.value.ty = GoDynType.tContainer then Except.ok (some node.value)
      else Except.error (GoPanic.interfaceConversion node.value.ty)

/-- `Queue.Size`. -/
def Queue.getSize (q : Queue) : Int := q.size

/-- Walk from address `a` via `next` links, counting the visited nodes
until `back` is reached (inclusive); `none` when `back` is not reached
within the fuel. -/
def walkCount (heap : List Container) (back : Nat) :
    Option Nat → Nat → Option Nat
  | none, _ => none
  | some _, 0 => none
  | some a, Nat.succ fuel =>
    if a = back then some 1
    else
      match heap[a]? with
      | none => none
      | some c => (walkCount heap back c.next fuel).map (fun n => n + 1)

/-- The number of nodes reachable by following `next` links from `front`
to `back`: `0` for the empty queue, and the length of the front-to-back
walk otherwise. -/
def Queue.reachableNodes (q : Queue) : Option Nat :=
  match q.front, q.back with
  | none, none => some 0
  | some f, some b => walkCount q.heap b (some f) (q.heap.length + 1)
  | _, _ => none

/-! ## Control-plane façade (package `http`) -/

/-- `http.GetError`: `json.Marshal` of `HTTPError{Message: message}`. -/
def getError (message : String) : String :=
  "\x7b\"message\":\"" ++ message ++ "\"\x7d"

/-- The façade's `Manager` state: the connection registry
(`map[int]solr.Solr`), the job registry (`solr.SolrJobManager`, a
`map[int]*SolrJob`), and the work queue. Both Go maps are modelled as
association lists with unique keys. -/
structure ManagerState where
  solr : List (Int × Solr)
  jobs : List (Int × SolrJob)
  queue : Queue
  deriving DecidableEq

/-- Lookup in the connection registry (`m.solr[id]`, presence form). -/
def lookupSolr (m : List (Int × Solr)) (k : Int) : Option Solr :=
  (m.find? (fun p => p.1 == k)).map (fun p => p.2)

/-- `SolrJobManager.RegisterJob`: `j[id] = job` on a Go map — update the
existing key or insert a new one. -/
def registerJob (jobs : List (Int × SolrJob)) (id : Int) (job : SolrJob) :
    List (Int × SolrJob) :=
  if (jobs.find? (fun p => p.1 == id)).isSome then
    jobs.map (fun p => if p.1 == id then (id, job) else p)
  else jobs ++ [(id, job)]

/-- `SolrJobManager.GetNextId`: `len(j) + 1`. -/
def getNextId (jobs : List (Int × SolrJob)) : Int :=
  Int.ofNat jobs.length + 1

/-- Outcome of a `SubmitJob` request, after the JSON body has been
decoded. An error path goes through `http.Error` (status plus the
`GetError` body, to which `http.Error` appends a newline). On the
success path the handler first `Fprintf`s a debug line, then registers
the response struct; the transport details of that reply are not
load-bearing for any claim and are carried as the response struct's
fields. -/
inductive SubmitResult where
  | httpError (status : Int) (body : String)
  | registered (jobID : Int) (message : String)
  deriving DecidableEq

/-- `Manager.SubmitJob`, from the point where the request body has been
decoded into a `SolrCore`: if the referenced connection id is absent,
reply 400 with the `GetError` body and touch nothing; otherwise allocate
the next job id, build the job, register it, wrap it in a fresh
`Container` (whose `any` value is the `*SolrJob`) and push it on the
queue. -/
def Manager.submitJob (m : ManagerState) (req : SolrCore) :
    ManagerState × SubmitResult :=
  match lookupSolr m.solr req.solrID with
  | none =>
    (m, SubmitResult.httpError 400
      (getError "No such Solr configuraion present" ++ "\n"))
  | some solrInstance =>
    let req1 := { req with id := getNextId m.jobs }
    let solrCore := req1
    let jobInstance := getSolrJob solrCore solrInstance
    let jobs1 := registerJob m.jobs solrCore.id jobInstance
    let alloc := getContainer m.queue.heap
      { ty := GoDynType.tSolrJobPtr, tag := 0 }
    let queue1 := Queue.pushBack { m.queue with heap := alloc.1 } alloc.2
    ({ m with jobs := jobs1, queue := queue1 },
      SubmitResult.registered solrCore.id "Solr job registered successfully")

/-- Writes a handler performs on its `http.ResponseWriter`. -/
inductive RespEvent where
  | writeHeader (code : Int)
  | write (body : String)
  deriving DecidableEq

/-- `Manager.CancelJob`: the source handler body is empty — it performs
no writes whatever the request. -/
def Manager.cancelJob (_jobID : Int) : List RespEvent := []

/-- Body text accumulated by a list of response writes. -/
def bodyOf : List RespEvent → String
  | [] => ""
  | RespEvent.writeHeader _ :: rest => bodyOf rest
  | RespEvent.write s :: rest => s ++ bodyOf rest

/-- net/http semantics of a handler's writes: a handler that returns
without writing anything sends status 200 with an empty body; otherwise
the first `WriteHeader` (or the implicit 200 at the first `Write`) fixes
the status, and the writes concatenate into the body. -/
def renderResponse : List RespEvent → Int × String
  | [] => (200, "")
  | RespEvent.writeHeader c :: rest => (c, bodyOf rest)
  | RespEvent.write s :: rest => (200, s ++ bodyOf rest)

/-! ## Concrete fixtures for the concrete-input theorems -/

/-- A registered search-index connection. -/
def solrA : Solr := { id := 1, host := "idx", port := "8983" }

/-- A job descriptor referencing connection 1, labelling examples
`"pos"`, with the analytics engine at `svc:9000`. -/
def coreA : SolrCore :=
  { id := 1
    solrID := 1
    collection := "news"
    sort := "id asc"
    cursorMark := ""
    rows := 2
    endpoint := ""
    label := "pos"
    host := "svc"
    port := "9000" }

/-- The job built from the fixtures above (allocated `PENDING`). -/
def jobA : SolrJob := getSolrJob coreA solrA

/-- A response envelope carrying one document with content `"hello"` and
the next cursor token `"AoE1"` among the echoed params. -/
def respPage1 : SolrResponse :=
  { responseHeader :=
      { status := 0, qTime := 3, params := [("nextCursorMark", "AoE1")] }
    response :=
      { numFound := 1, start := 0, numFoundExact := true
        docs := [{ content := "hello" }] } }

/-- A world in which every GET returns a body that decodes to
`respPage1` (a non-empty page) and every POST succeeds. -/
def W1 : HttpWorld :=
  { get := fun _ => Except.ok "page1"
    post := fun _ _ => Except.ok { data := "", status := 200 }
    decodeSolr := fun d => if d = "page1" then some respPage1 else none
    decodeStatus := fun _ => none }

/-! ## Behaviour of `solrPuller` -/

/-- The error a single-page pull produces for a given cursor: the
transport error if the GET failed, else the `InvalidUnmarshalError`
caused by passing `solrResponse` to `json.Unmarshal` by value. -/
def pullErrOf (w : HttpWorld) (s : SolrJob) (c : String) : GoError :=
  match w.get (SolrJob.getSolrUrl s c) with
  | Except.error e => e
  | Except.ok _ => GoError.invalidUnmarshal "solr.SolrResponse"

/-- `solrPuller` returns the zero cursor, the zero batch, and an error,
for every world and every cursor: the non-pointer unmarshal target fails
before the response is ever inspected. -/
theorem solrPuller_eq (w : HttpWorld) (s : SolrJob) (c : String) :
    SolrJob.solrPuller w s c = ("", { examples := [] }, some (pullErrOf w s c)) := by
  unfold SolrJob.solrPuller pullErrOf
  cases w.get (SolrJob.getSolrUrl s c) <;> simp [jsonUnmarshal]

/-- Unfolding one step of `PullSolrData`: with any fuel left, the first
page pull errors, the callback is invoked once with that error, and the
recursion stops. -/
theorem pullSolrDataAux_succ (w : HttpWorld) (s : SolrJob)
    (fn : SolrErrorFunction) (fuel : Nat) (c : String) (log : PullLog) :
    SolrJob.pullSolrDataAux w s fn (fuel + 1) c log =
      ({ queried := log.queried ++ [c]
         calls := log.calls ++ [({ examples := [] }, some (pullErrOf w s c))] },
        some (fn { examples := [] } (some (pullErrOf w s c)))) := by
  simp [SolrJob.pullSolrDataAux, solrPuller_eq]

/-- Claim C1: for every search-index response with a non-empty `docs`
array, the puller is claimed to convert each document into a
`(content, jobLabel)` example, wrap the list in a batch and invoke the
per-batch callback with `(batch, nil)` before pulling the next page. The
code never does: every invocation of the callback carries a non-nil
error (the source calls `fn` only in the error branch, and the
by-value unmarshal makes every page pull error); concretely, in the
world `W1` whose page holds the document `"hello"`, the only callback
invocation carries the empty batch and the `InvalidUnmarshalError`. -/
theorem c1_callback_never_receives_batch :
    (∀ (w : HttpWorld) (s : SolrJob) (fn : SolrErrorFunction) (fuel : Nat)
        (c : String),
      ((SolrJob.pullSolrDataAux w s fn fuel c PullLog.empty).1.calls.all
        (fun p => p.2.isSome)) = true)
    ∧ (SolrJob.pullSolrDataAux W1 jobA (fun _ e => e) 2 "*"
        PullLog.empty).1.calls
      = [({ examples := [] },
          some (GoError.invalidUnmarshal "solr.SolrResponse"))] := by
  constructor
  · intro w s fn fuel c
    cases fuel with
    | zero => simp [SolrJob.pullSolrDataAux, PullLog.empty]
    | succ n => simp [pullSolrDataAux_succ, PullLog.empty]
  · rfl

/-- Claim C3: the puller is claimed to query the sentinel cursor once
and then every cursor token returned by the index, each exactly once and
in order. In the code, every run queries exactly the starting cursor and
nothing else — whatever pages, cursor tokens or errors the index
returns — because the first page pull always errors out. Subsequent
cursor tokens are never visited at all. -/
theorem c3_only_initial_cursor_queried :
    ∀ (w : HttpWorld) (s : SolrJob) (fn : SolrErrorFunction) (fuel : Nat)
      (c : String),
      (SolrJob.pullSolrDataAux w s fn (fuel + 1) c PullLog.empty).1.queried
        = [c] := by
  intro w s fn fuel c
  simp [pullSolrDataAux_succ, PullLog.empty]

/-- Claim C2: `Operation` is claimed to make the job's observable status
`Running` while in progress and `Completed`/`Failed` (with the error
recorded) on return. But `Operation` is declared with a value receiver,
so all its status writes land on a copy: for every world and fuel the
caller's job is returned bit-for-bit unchanged; concretely, running the
pending `jobA` in world `W1` yields a call result that is an error, yet
the observable status is still `PENDING` and the error message still
empty. -/
theorem c2_operation_status_writes_lost :
    (∀ (w : HttpWorld) (fuel : Nat) (j : SolrJob),
        (SolrJob.callOperation w fuel j).1 = j)
    ∧ (SolrJob.callOperation W1 1 jobA).1.status = SolrJobStatus.PENDING
    ∧ (SolrJob.callOperation W1 1 jobA).2
        = some (some (GoError.invalidUnmarshal "solr.SolrResponse"))
    ∧ (SolrJob.callOperation W1 1 jobA).1.errorMessage = "" := by
  refine ⟨?_, rfl, rfl, rfl⟩
  intro w fuel j
  unfold SolrJob.callOperation
  cases h : SolrJob.OperationBody w fuel j with
  | none => rfl
  | some p => rfl

/-! ## Claim C4: `Init` -/

/-- A body that would decode to `{running: false}` — the case in which
the claim says `Init` must POST `/stream/start` and end `Pending`. -/
def statusBody : RawData := "statusFalse"

/-- A world whose GETs return `statusBody` (decoding to
`{running: false}`) and whose POSTs all succeed. -/
def W4 : HttpWorld :=
  { get := fun _ => Except.ok statusBody
    post := fun _ _ => Except.ok { data := "", status := 200 }
    decodeSolr := fun _ => none
    decodeStatus := fun d =>
      if d = statusBody then some { running := false } else none }

/-- The same world except that every POST fails with a transport error:
if `Init` issued `POST /stream/start`, its result would differ. -/
def W4noPost : HttpWorld :=
  { W4 with post := fun _ _ => Except.error (GoError.transport "refused") }

/-- Claim C4: `Init` is claimed to parse the `{running}` payload, POST
`/stream/start` when it reports false, and on success set the status
back to `Pending`. In the code, `json.Unmarshal(data, isRunning)` passes
the struct by value and therefore always fails: even in a world where
the GET succeeds with a payload reporting `running: false` and any POST
would succeed, `Init` returns the `InvalidUnmarshalError` and leaves the
status at `INIT`; and the run is identical in the world where every POST
fails, so `POST /stream/start` is never issued. -/
theorem c4_init_never_parses_nor_starts :
    SolrJob.Init W4 jobA
      = ({ jobA with status := SolrJobStatus.INIT },
          some (GoError.invalidUnmarshal "core.TrainingStatus"))
    ∧ SolrJob.Init W4noPost jobA = SolrJob.Init W4 jobA := by
  exact ⟨rfl, rfl⟩

/-! ## Claim C5: the queue size invariant -/

/-- `GetContainer` applied to the empty heap, wrapping an (arbitrary)
container-typed value. -/
def c5Alloc : List Container × Nat :=
  getContainer newQueue.heap { ty := GoDynType.tContainer, tag := 0 }

/-- `PushFront` of that fresh node onto the empty queue. -/
def c5Queue : Queue := Queue.pushFront { newQueue with heap := c5Alloc.1 } c5Alloc.2

/-- Claim C5: the queue's `size` field is claimed to always equal the
number of nodes reachable from `front` to `back` via `next`. A single
`PushFront` onto the empty queue already breaks it: the source returns
early on the empty branch, before its `q.size += 1`, so one node is
reachable from `front` to `back` while `size` is still `0`. -/
theorem c5_pushfront_breaks_size_invariant :
    Queue.reachableNodes c5Queue = some 1 ∧ c5Queue.size = 0 := by
  exact ⟨rfl, rfl⟩

/-! ## Claim C6: empty `docs` termination -/

/-- A body that would decode to a well-formed envelope whose `docs`
array is empty. -/
def emptyDocsBody : RawData := "emptyDocs"

/-- The decoded empty-page envelope. -/
def respEmpty : SolrResponse :=
  { responseHeader :=
      { status := 0, qTime := 2, params := [("cursorMark", "*")] }
    response :=
      { numFound := 0, start := 0, numFoundExact := true, docs := [] } }

/-- A world whose GETs return the empty-page body. -/
def W6 : HttpWorld :=
  { get := fun _ => Except.ok emptyDocsBody
    post := fun _ _ => Except.ok { data := "", status := 200 }
    decodeSolr := fun d => if d = emptyDocsBody then some respEmpty else none
    decodeStatus := fun _ => none }

/-- Claim C6: an empty `docs` array is claimed to make the single-page
pull return the `NoMoreData`-style error `"No more documents to fetch"`.
In the code that branch is unreachable: the by-value unmarshal fails
before `docs` is examined, so on an empty page `solrPuller` returns the
`InvalidUnmarshalError` — a decode-class failure, not the `NoMoreData`
outcome (which is a distinct error value). -/
theorem c6_empty_docs_not_reported_as_nomoredata :
    SolrJob.solrPuller W6 jobA "*"
      = ("", { examples := [] },
          some (GoError.invalidUnmarshal "solr.SolrResponse"))
    ∧ GoError.invalidUnmarshal "solr.SolrResponse"
        ≠ GoError.errorf "No more documents to fetch" := by
  refine ⟨rfl, ?_⟩
  intro h
  cases h

/-! ## Claim C7: submit against an unknown connection -/

/-- Claim C7: a `submit_job` request referencing a connection id that is
not in the connection registry gets the structured `No such Solr
configuraion present` error reply (HTTP 400), and the manager state —
connection registry, job registry and work queue — is returned
unchanged: no job is allocated, registered or enqueued. -/
theorem c7_submit_unknown_connection_rejected (m : ManagerState)
    (req : SolrCore) (h : lookupSolr m.solr req.solrID = none) :
    Manager.submitJob m req
      = (m, SubmitResult.httpError 400
          (getError "No such Solr configuraion present" ++ "\n")) := by
  unfold Manager.submitJob
  rw [h]

/-- An empty manager state. -/
def m0 : ManagerState := { solr := [], jobs := [], queue := newQueue }

/-- A request referencing the unregistered connection id 7. -/
def req0 : SolrCore := { coreA with solrID := 7 }

/-- Concrete run of claim C7's theorem: submitting against the empty
registry returns the not-found error and the unchanged state. -/
theorem c7_witness :
    lookupSolr m0.solr req0.solrID = none
    ∧ Manager.submitJob m0 req0
      = (m0, SubmitResult.httpError 400
          (getError "No such Solr configuraion present" ++ "\n")) :=
  ⟨rfl, c7_submit_unknown_connection_rejected m0 req0 rfl⟩

/-! ## Claim C8: the cancel endpoint -/

/-- Claim C8: every `cancel_job` request is claimed to get a well-formed
structured "not implemented" reply. The source handler's body is empty,
so under net/http semantics every request gets an empty 200 success
response — there is no JSON body and no error status at all. -/
theorem c8_cancel_returns_empty_success :
    ∀ jobID : Int, renderResponse (Manager.cancelJob jobID) = (200, "") := by
  intro _
  rfl

/-! ## Claim C9: the unchecked type assertions in pop/peek -/

/-- A normal non-empty `PopFront` implies the front value's dynamic type
was `Container`. -/
theorem popFront_ok_ty (q : Queue) (v : GoVal) (r : Queue)
    (h : Queue.popFront q = Except.ok (some (v, r))) :
    v.ty = GoDynType.tContainer := by
  unfold Queue.popFront at h
  split at h
  · cases h
  · split at h
    · cases h
    · split at h
      · rename_i node _ hty
        simp only [Except.ok.injEq, Option.some.injEq, Prod.mk.injEq] at h
        rw [← h.1]
        exact hty
      · cases h

/-- A normal non-empty `PopBack` implies the back value's dynamic type
was `Container`. -/
theorem popBack_ok_ty (q : Queue) (v : GoVal) (r : Queue)
    (h : Queue.popBack q = Except.ok (some (v, r))) :
    v.ty = GoDynType.tContainer := by
  unfold Queue.popBack at h
  split at h
  · cases h
  · split at h
    · cases h
    · split at h
      · rename_i node _ hty
        simp only [Except.ok.injEq, Option.some.injEq, Prod.mk.injEq] at h
        rw [← h.1]
        exact hty
      · cases h

/-- A normal non-empty `PeekFront` implies the front value's dynamic
type was `Container`. -/
theorem peekFront_ok_ty (q : Queue) (v : GoVal)
    (h : Queue.peekFront q = Except.ok (some v)) :
    v.ty = GoDynType.tContainer := by
  unfold Queue.peekFront at h
  split at h
  · cases h
  · split at h
    · cases h
    · split at h
      · rename_i node _ hty
        simp only [Except.ok.injEq, Option.some.injEq] at h
        rw [← h]
        exact hty
      · cases h

/-- A normal non-empty `PeekBack` implies the back value's dynamic type
was `Container`. -/
theorem peekBack_ok_ty (q : Queue) (v : GoVal)
    (h : Queue.peekBack q = Except.ok (some v)) :
    v.ty = GoDynType.tContainer := by
  unfold Queue.peekBack at h
  split at h
  · cases h
  · split at h
    · cases h
    · split at h
      · rename_i node _ hty
        simp only [Except.ok.injEq, Option.some.injEq] at h
        rw [← h]
        exact hty
      · cases h

/-- Claim C9: `PopFront`/`PopBack`/`PeekFront`/`PeekBack` return
normally (with an element) only when the stored `Value` is itself of
dynamic type `Container`; on any non-empty queue whose node values are
`*SolrJob` pointers — which is what the submission façade stores, since
`SubmitJob` pushes `GetContainer(jobInstance)` — every pop and peek
panics with a failed interface conversion. -/
theorem c9_pop_peek_panic_on_facade_values (q : Queue) (f b : Nat)
    (nf nb : Container) (hfr : q.front = some f) (hbk : q.back = some b)
    (hnf : q.heap[f]? = some nf) (hnb : q.heap[b]? = some nb)
    (hvf : nf.value.ty = GoDynType.tSolrJobPtr)
    (hvb : nb.value.ty = GoDynType.tSolrJobPtr) :
    Queue.popFront q
      = Except.error (GoPanic.interfaceConversion GoDynType.tSolrJobPtr)
    ∧ Queue.popBack q
      = Except.error (GoPanic.interfaceConversion GoDynType.tSolrJobPtr)
    ∧ Queue.peekFront q
      = Except.error (GoPanic.interfaceConversion GoDynType.tSolrJobPtr)
    ∧ Queue.peekBack q
      = Except.error (GoPanic.interfaceConversion GoDynType.tSolrJobPtr)
    ∧ (∀ (q2 : Queue) (v : GoVal) (r : Queue),
        Queue.popFront q2 = Except.ok (some (v, r)) →
          v.ty = GoDynType.tContainer)
    ∧ (∀ (q2 : Queue) (v : GoVal) (r : Queue),
        Queue.popBack q2 = Except.ok (some (v, r)) →
          v.ty = GoDynType.tContainer)
    ∧ (∀ (q2 : Queue) (v : GoVal),
        Queue.peekFront q2 = Except.ok (some v) →
          v.ty = GoDynType.tContainer)
    ∧ (∀ (q2 : Queue) (v : GoVal),
        Queue.peekBack q2 = Except.ok (some v) →
          v.ty = GoDynType.tContainer) := by
  refine ⟨?_, ?_, ?_, ?_, popFront_ok_ty, popBack_ok_ty, peekFront_ok_ty,
    peekBack_ok_ty⟩
  · simp [Queue.popFront, hfr, hnf, hvf]
  · simp [Queue.popBack, hbk, hnb, hvb]
  · simp [Queue.peekFront, hfr, hnf, hvf]
  · simp [Queue.peekBack, hbk, hnb, hvb]

/-- A manager state holding the single registered connection 1. -/
def m1 : ManagerState := { solr := [(1, solrA)], jobs := [], queue := newQueue }

/-- The manager state after the façade accepts the submission of
`coreA` — its queue holds one container wrapping a `*SolrJob`. -/
def facadeState : ManagerState := (Manager.submitJob m1 coreA).1

/-- The node the façade pushed. -/
def facadeNode : Container :=
  { prv := none, next := none
    value := { ty := GoDynType.tSolrJobPtr, tag := 0 } }

/-- Concrete run of claim C9's theorem on the queue produced by the
submission façade: every pop and peek panics. -/
theorem c9_witness :
    Queue.popFront facadeState.queue
      = Except.error (GoPanic.interfaceConversion GoDynType.tSolrJobPtr)
    ∧ Queue.popBack facadeState.queue
      = Except.error (GoPanic.interfaceConversion GoDynType.tSolrJobPtr)
    ∧ Queue.peekFront facadeState.queue
      = Except.error (GoPanic.interfaceConversion GoDynType.tSolrJobPtr)
    ∧ Queue.peekBack facadeState.queue
      = Except.error (GoPanic.interfaceConversion GoDynType.tSolrJobPtr)
    ∧ (∀ (q2 : Queue) (v : GoVal) (r : Queue),
        Queue.popFront q2 = Except.ok (some (v, r)) →
          v.ty = GoDynType.tContainer)
    ∧ (∀ (q2 : Queue) (v : GoVal) (r : Queue),
        Queue.popBack q2 = Except.ok (some (v, r)) →
          v.ty = GoDynType.tContainer)
    ∧ (∀ (q2 : Queue) (v : GoVal),
        Queue.peekFront q2 = Except.ok (some v) →
          v.ty = GoDynType.tContainer)
    ∧ (∀ (q2 : Queue) (v : GoVal),
        Queue.peekBack q2 = Except.ok (some v) →
          v.ty = GoDynType.tContainer) :=
  c9_pop_peek_panic_on_facade_values facadeState.queue 0 0 facadeNode
    facadeNode rfl rfl rfl rfl rfl rfl

/-! ## Claim C10: `getTargetURL` -/

/-- `needle` occurs somewhere inside `hay`. -/
def substringOf (needle hay : String) : Prop :=
  ∃ a c, hay = a ++ needle ++ c

/-- Claim C10 counterexample: the claim says the returned URL string
never contains the endpoint path; in fact the endpoint path does occur
in the returned string — inside the `%!(EXTRA string=...)` artifact. -/
theorem c10_counterexample :
    substringOf "/stream/status" (SolrJob.getTargetURL jobA "/stream/status") :=
  ⟨"http://svc:9000%!(EXTRA string=", ")", rfl⟩

/-- Claim C10 (amended): for every endpoint string, `getTargetURL`
returns exactly `http://{host}:{port}` followed by the fmt artifact
`%!(EXTRA string={endpoint})`; the endpoint path occurs only inside that
artifact and is never appended to the authority as a URL path, so every
training-service call is issued to a URL whose authority is not followed
by the intended endpoint path. -/
theorem c10_gettargeturl_extra_artifact (s : SolrJob) (endpoint : String) :
    SolrJob.getTargetURL s endpoint
      = "http://" ++ s.j.host ++ ":" ++ s.j.port ++ "%!(EXTRA string=" ++
          endpoint ++ ")"
    ∧ SolrJob.getTargetURL s endpoint
      ≠ "http://" ++ s.j.host ++ ":" ++ s.j.port ++ endpoint := by
  constructor
  · rfl
  · intro h
    have hlen := congrArg String.length h
    have hart : ("%!(EXTRA string=" : String).length = 16 := rfl
    have hcl : (")" : String).length = 1 := rfl
    simp only [SolrJob.getTargetURL, String.length_append, hart, hcl] at hlen
    omega

end NwsSent
